import Mathlib

/-! Overview.

Verification development for the redrift drift-gating engine.

The Python modules `redrift/specs.py`, `redrift/verify.py` and
`redrift/drift.py` are shallowly embedded below.  Pure string processing is
translated directly; filesystem access, subprocess execution and regex
matching are abstracted as explicit environment records (`DriftEnv`,
`VerifyEnv`) whose fields play the role of the ambient world, so every
function stays executable and every statement decidable on concrete inputs.
Python `str` values are modelled by `String`, Python `int` by `Int` (or `Nat`
where the source value is a count), JSON/TOML tables by association lists,
and Python `None`-able values by `Option`.
-/

namespace Redrift

/-! Section: String helpers (Python `str` methods used by the source) -/

/-- Characters removed by Python `str.strip()` (whitespace). -/
def pyStripL (l : List Char) : List Char :=
  ((l.dropWhile Char.isWhitespace).reverse.dropWhile Char.isWhitespace).reverse

/-- Python `s.strip()`. -/
def pyStrip (s : String) : String := String.mk (pyStripL s.data)

/-- Python `s.lower()` (ASCII case folding, as used on the ASCII tags here). -/
def pyLower (s : String) : String := String.mk (s.data.map Char.toLower)

/-- Python `s.lstrip("/")`. -/
def lstripSlash (s : String) : String := String.mk (s.data.dropWhile (fun c => c = '/'))

/-- Python `x or ""` on an optional string (`None` and `""` both give `""`). -/
def orEmpty : Option String → String
  | none => ""
  | some s => s

/-- Python `a or b` on strings: `b` when `a` is falsy (empty), else `a`. -/
def pyOrS (a b : String) : String := if a = "" then b else a

/-- Python `len(s)` on a string. -/
def pyLen (s : String) : Nat := s.data.length

/-- Substring test on character lists: `needle` occurs inside `hay`. -/
def containsSub (needle : List Char) : List Char → Bool
  | [] => needle.isEmpty
  | c :: t => needle.isPrefixOf (c :: t) || containsSub needle t

/-- Python `needle in hay` on strings. -/
def pyIn (needle hay : String) : Bool := containsSub needle.data hay.data

/-- Python `pathlib` `/` join, for the relative components the source uses. -/
def pathJoin (a b : String) : String := a ++ "/" ++ b

/-! Section: specs.py — the decoded redrift contract -/

/-- One entry of `verify_assertions`: a TOML table as read by the assertion
runners.  Only the keys the source consults are modelled (`kind`, `type`,
`path`, `max`, `pattern`, `include`); `maxRaw` is the result of Python
`int(...)` coercion of the raw `max` value (`none` when the key is absent or
the coercion raises), and `includeGlobs` is `none` when the `include` key is
absent or its value is not a list. -/
structure Assertion where
  kind : Option String
  tyTag : Option String
  path : Option String
  maxRaw : Option Int
  pattern : Option String
  includeGlobs : Option (List String)
deriving DecidableEq

/-- The raw TOML table handed to `RedriftSpec.from_raw`.  Each field is
`none` when the key is absent; `schema` and `max_followup_depth` hold the
result of the source's `int(...)` coercion (for `max_followup_depth` a failed
coercion is also `none`, matching the `except` fallback to the default). -/
structure RawSpec where
  schema : Option Int
  artifact_root : Option String
  required_artifacts : Option (List String)
  create_phase_followups : Option Bool
  verify_required : Option Bool
  verify_commands : Option (List String)
  verify_assertions : Option (List (Option Assertion))
  max_followup_depth : Option Int
deriving DecidableEq

/-- The decoded specification dataclass `RedriftSpec`. -/
structure RedriftSpec where
  schema : Int
  artifact_root : String
  required_artifacts : List String
  create_phase_followups : Bool
  verify_required : Bool
  verify_commands : List String
  verify_assertions : List Assertion
  max_followup_depth : Int
deriving DecidableEq

/-- The default six-item `required_artifacts` list from `from_raw`. -/
def defaultArtifacts : List String :=
  ["analyze/inventory.md", "analyze/constraints.md", "respec/v2-spec.md",
   "design/v2-architecture.md", "design/adr.md", "build/migration-plan.md"]

/-- The artifact normalization comprehension in `from_raw`:
`[str(x).strip().lstrip("/") for x in xs if str(x).strip()]`. -/
def cleanArtifacts (xs : List String) : List String :=
  xs.filterMap (fun x => if pyStrip x = "" then none else some (lstripSlash (pyStrip x)))

/-- The command normalization comprehension used by `from_raw` and
`run_verify`: `[str(x).strip() for x in xs if str(x).strip()]`. -/
def cleanCommands (xs : List String) : List String :=
  xs.filterMap (fun x => if pyStrip x = "" then none else some (pyStrip x))

/-- Embedding of `RedriftSpec.from_raw` (specs.py lines 42-80). -/
def RedriftSpec.from_raw (raw : RawSpec) : RedriftSpec :=
  let schema := raw.schema.getD 1
  let artifact_root :=
    pyOrS (pyStrip (pyOrS (orEmpty raw.artifact_root) (".workgraph/.redrift")))
      (".workgraph/.redrift")
  let required_artifacts :=
    cleanArtifacts
      (match raw.required_artifacts with
       | none => defaultArtifacts
       | some [] => defaultArtifacts
       | some l => l)
  let create_phase_followups := raw.create_phase_followups.getD true
  let verify_required := raw.verify_required.getD true
  let verify_commands := cleanCommands (raw.verify_commands.getD [])
  let verify_assertions := (raw.verify_assertions.getD []).filterMap id
  let depth0 := raw.max_followup_depth.getD 1
  let max_followup_depth := if depth0 < 0 then 0 else depth0
  ⟨schema, artifact_root, required_artifacts, create_phase_followups,
   verify_required, verify_commands, verify_assertions, max_followup_depth⟩

/-! Section: verify.py — verification state, commands and assertions -/

/-- Marker appended by `_truncate` (verify.py lines 59-62) on truncation. -/
def truncMarker : String := "\n...[truncated]..."

/-- Embedding of `_truncate(text, limit)` (verify.py lines 59-62). -/
def truncate (limit : Nat) (text : String) : String :=
  if pyLen text ≤ limit then text
  else String.mk (text.data.take limit ++ truncMarker.data)

/-- Character class `[A-Za-z0-9_.-]` of `_safe_task_key`. -/
def safeChar (c : Char) : Bool := c.isAlphanum || c = '_' || c = '.' || c = '-'

/-- Embedding of `re.sub(r"[^A-Za-z0-9_.-]+", "__", ·)`: each maximal run of unsafe
characters collapses to a double underscore.  The boolean tracks whether the
previous character was inside an unsafe run. -/
def collapseRuns : List Char → Bool → List Char
  | [], _ => []
  | c :: rest, inRun =>
    if safeChar c then c :: collapseRuns rest false
    else if inRun then collapseRuns rest true
    else '_' :: '_' :: collapseRuns rest true

/-- Python `key.strip("._")`. -/
def stripDotUnderscore (l : List Char) : List Char :=
  (((l.dropWhile fun c => c = '.' || c = '_').reverse.dropWhile
      fun c => c = '.' || c = '_')).reverse

/-- Embedding of `_safe_task_key` (verify.py lines 33-36). -/
def safeTaskKey (task_id : String) : String :=
  let key := String.mk (collapseRuns (pyStrip task_id).data false)
  let key := String.mk (stripDotUnderscore key.data)
  pyOrS key ("task")

/-- Embedding of `verify_state_path` (verify.py lines 39-40). -/
def verifyStatePath (project_dir task_id : String) : String :=
  pathJoin (pathJoin (pathJoin (pathJoin project_dir (".workgraph")) (".redrift"))
    ("verify")) (safeTaskKey task_id ++ ".json")

/-- One pattern-assertion match record (`{"path": ..., "line": ...}`). -/
structure Hit where
  path : String
  line : Nat
deriving DecidableEq

/-- JSON-like values stored in assertion-result `details` maps. -/
inductive AVal where
  | s : String → AVal
  | i : Int → AVal
  | oi : Option Int → AVal
  | sl : List String → AVal
  | hits : List Hit → AVal
deriving DecidableEq

/-- The `details` payload of an assertion result: usually a table, but the
unknown-kind branch stores the raw assertion itself. -/
inductive ADetails where
  | table : List (String × AVal) → ADetails
  | rawTable : Assertion → ADetails
deriving DecidableEq

/-- The per-assertion result dict produced by `_run_assertion` and friends. -/
structure AssertResult where
  kind : String
  ok : Bool
  summary : String
  details : ADetails
deriving DecidableEq

/-- The raw outcome of one `subprocess.run` invocation: environment data for
`_run_command` (return code, captured streams, measured duration). -/
structure CmdOutcome where
  returncode : Int
  stdout : String
  stderr : String
  durationMs : Nat
deriving DecidableEq

/-- The per-command result dict produced by `_run_command`. -/
structure CmdResult where
  command : String
  exit_code : Int
  ok : Bool
  duration_ms : Nat
  stdout : String
  stderr : String
deriving DecidableEq

/-- The ambient world of `run_verify`: filesystem queries relative to the
project directory, the file walk of `_walk_files`, file reads, the regex
oracle (compilation validity, error text, first-match position) and the
subprocess runner.  All source I/O goes through these fields. -/
structure VerifyEnv where
  fileExists : String → Bool
  fileLineCount : String → Nat
  walkFiles : List String → List String
  readFile : String → Option String
  regexValid : String → Bool
  regexError : String → String
  regexSearch : String → String → Option Nat
  run : String → CmdOutcome
  nowMs : Nat

/-- Embedding of `_run_command` (verify.py lines 218-234). -/
def runCommand (env : VerifyEnv) (command : String) : CmdResult :=
  let proc := env.run command
  { command := command
    exit_code := proc.returncode
    ok := decide (proc.returncode = 0)
    duration_ms := proc.durationMs
    stdout := truncate 2000 proc.stdout
    stderr := truncate 2000 proc.stderr }

/-- Embedding of `_assert_max_lines` (verify.py lines 79-113).  `int(assertion.get("max"))`
with the `except` fallback becomes `a.maxRaw.getD 0`. -/
def assertMaxLines (env : VerifyEnv) (a : Assertion) : AssertResult :=
  let path := pyStrip (orEmpty a.path)
  let max_lines : Int := a.maxRaw.getD 0
  if path = "" ∨ max_lines ≤ 0 then
    { kind := "max_lines", ok := false
      summary := "max_lines assertion requires path + positive max"
      details := ADetails.table [("path", AVal.s path), ("max", AVal.oi a.maxRaw)] }
  else if env.fileExists path = false then
    { kind := "max_lines", ok := false
      summary := "file not found for max_lines assertion"
      details := ADetails.table [("path", AVal.s path), ("max", AVal.i max_lines)] }
  else
    let lines := env.fileLineCount path
    { kind := "max_lines", ok := decide ((lines : Int) ≤ max_lines)
      summary := path ++ ": " ++ toString lines ++ " lines (max " ++ toString max_lines ++ ")"
      details := ADetails.table
        [("path", AVal.s path), ("lines", AVal.i lines), ("max", AVal.i max_lines)] }

/-- Embedding of `_assert_file_exists` (verify.py lines 116-132). -/
def assertFileExists (env : VerifyEnv) (a : Assertion) : AssertResult :=
  let path := pyStrip (orEmpty a.path)
  if path = "" then
    { kind := "file_exists", ok := false
      summary := "file_exists assertion requires path", details := ADetails.table [] }
  else
    let ok := env.fileExists path
    { kind := "file_exists", ok := ok
      summary := path ++ ": " ++ (if ok then "exists" else "missing")
      details := ADetails.table [("path", AVal.s path)] }

/-- The default include glob list of `_pattern_assertion`. -/
def defaultIncludes : List String :=
  ["**/*.py", "**/*.ts", "**/*.tsx", "**/*.js", "**/*.jsx", "**/*.md", "**/*.toml"]

/-- Embedding of `content.count("\n", 0, pos)`, the newline count before `pos`. -/
def countNewlinesBefore (content : String) (pos : Nat) : Nat :=
  (content.data.take pos).countP (fun c => c = '\n')

/-- The file loop of `_pattern_assertion`: skip unreadable files, record a
hit per matching file, and stop after the first hit unless `requireHit`
(the `if not require_hit: break`). -/
def collectHits (env : VerifyEnv) (pat : String) (requireHit : Bool) : List String → List Hit
  | [] => []
  | fp :: rest =>
    match env.readFile fp with
    | none => collectHits env pat requireHit rest
    | some content =>
      match env.regexSearch pat content with
      | none => collectHits env pat requireHit rest
      | some pos =>
        let hit : Hit := ⟨fp, countNewlinesBefore content pos + 1⟩
        if requireHit then hit :: collectHits env pat requireHit rest else [hit]

/-- Embedding of `_pattern_assertion` (verify.py lines 135-197). -/
def patternAssertion (env : VerifyEnv) (a : Assertion) (requireHit : Bool) : AssertResult :=
  let pat := pyStrip (orEmpty a.pattern)
  let ips0 := match a.includeGlobs with
    | some l => l.filterMap (fun x => if pyStrip x = "" then none else some (pyStrip x))
    | none => []
  let include_patterns := if ips0 = [] then defaultIncludes else ips0
  let kind := if requireHit then "require_pattern" else "forbid_pattern"
  if pat = "" then
    { kind := kind, ok := false
      summary := kind ++ " assertion requires pattern"
      details := ADetails.table [("include", AVal.sl include_patterns)] }
  else if env.regexValid pat = false then
    { kind := kind, ok := false
      summary := "invalid regex pattern: " ++ env.regexError pat
      details := ADetails.table [("pattern", AVal.s pat)] }
  else
    let allHits := collectHits env pat requireHit (env.walkFiles include_patterns)
    let ok := if requireHit then decide (allHits ≠ []) else decide (allHits = [])
    let summary :=
      if requireHit then
        (if ok then "require_pattern matched" else "require_pattern did not match")
      else (if ok then "forbid_pattern clean" else "forbid_pattern matched")
    { kind := kind, ok := ok, summary := summary
      details := ADetails.table
        [("pattern", AVal.s pat), ("include", AVal.sl include_patterns),
         ("hits", AVal.hits (allHits.take 20))] }

/-- Embedding of `_run_assertion` (verify.py lines 200-215): dispatch on the normalized
`kind`/`type` tag with the unknown-kind fallback. -/
def runAssertion (env : VerifyEnv) (a : Assertion) : AssertResult :=
  let kind := pyLower (pyStrip (pyOrS (orEmpty a.kind) (orEmpty a.tyTag)))
  if kind = "max_lines" then assertMaxLines env a
  else if kind = "file_exists" then assertFileExists env a
  else if kind = "forbid_pattern" then patternAssertion env a false
  else if kind = "require_pattern" then patternAssertion env a true
  else
    { kind := pyOrS kind ("unknown"), ok := false
      summary := "unsupported assertion kind: " ++ pyOrS kind ("<missing>")
      details := ADetails.rawTable a }

/-! Section: Findings (shared by drift.py and verify.py reports) -/

/-- One unresolved follow-up record `{"id": ..., "status": ...}`. -/
structure Followup where
  id : String
  status : String
deriving DecidableEq

/-- JSON-like values stored in finding `details` maps: strings, nullable
strings, integers, string lists, follow-up lists, and (for
`verify_assertion_failed`) the assertion table and its result. -/
inductive DVal where
  | s : String → DVal
  | os : Option String → DVal
  | i : Int → DVal
  | sl : List String → DVal
  | fl : List Followup → DVal
  | adict : Assertion → DVal
  | ares : AssertResult → DVal
deriving DecidableEq

/-- The `Finding` dataclass of drift.py (also the shape of the finding dicts
built by `run_verify`); `details = none` models an absent `details` key. -/
structure Finding where
  kind : String
  severity : String
  summary : String
  details : Option (List (String × DVal))
deriving DecidableEq

/-! Section: run_verify (verify.py lines 237-304) -/

/-- The `summary` count block of a verification report. -/
structure VerifySummary where
  commands_total : Nat
  commands_failed : Nat
  assertions_total : Nat
  assertions_failed : Nat
deriving DecidableEq

/-- The report dict returned by `run_verify`. -/
structure VerifyReport where
  task_id : String
  task_title : String
  git_root : Option String
  score : String
  required : Bool
  commands : List CmdResult
  assertions : List AssertResult
  findings : List Finding
  summary : VerifySummary
  generated_at_epoch_ms : Nat
deriving DecidableEq

/-- Embedding of `run_verify` (verify.py lines 237-304).  The source re-filters
`spec.verify_assertions` with `isinstance(x, dict)`; in this typed embedding
every element of that field is already a table, so that filter is the
identity. -/
def run_verify (env : VerifyEnv) (task_id task_title : String) (spec : RedriftSpec)
    (git_root : Option String) : VerifyReport :=
  let commands := cleanCommands spec.verify_commands
  let assertions := spec.verify_assertions
  let unconfigured : List Finding :=
    if spec.verify_required = true ∧ commands = [] ∧ assertions = [] then
      [⟨"verify_unconfigured", "error",
        "verify_required=true but no verify commands/assertions are configured", none⟩]
    else []
  let command_results := commands.map (runCommand env)
  let cmdFindings := command_results.flatMap (fun row =>
    if row.ok then [] else
      [⟨"verify_command_failed", "error", "Command failed: " ++ row.command,
        some [("exit_code", DVal.i row.exit_code)]⟩])
  let assertion_results := assertions.map (runAssertion env)
  let aFindings := (assertions.map (fun a => (a, runAssertion env a))).flatMap (fun p =>
    if p.2.ok then [] else
      [⟨"verify_assertion_failed", "error", pyOrS p.2.summary ("assertion failed"),
        some [("assertion", DVal.adict p.1), ("result", DVal.ares p.2)]⟩])
  let findings : List Finding := unconfigured ++ cmdFindings ++ aFindings
  let score := if findings = [] then "green" else "red"
  { task_id := task_id
    task_title := task_title
    git_root := git_root
    score := score
    required := spec.verify_required
    commands := command_results
    assertions := assertion_results
    findings := findings
    summary :=
      ⟨command_results.length, (command_results.filter (fun r => r.ok = false)).length,
       assertion_results.length, (assertion_results.filter (fun r => r.ok = false)).length⟩
    generated_at_epoch_ms := env.nowMs }

/-! Section: drift.py — lineage, status normalization, follow-ups -/

/-- Embedding of `PHASE_ORDER` (drift.py line 12). -/
def PHASE_ORDER : List String := ["analyze", "respec", "design", "build"]

/-- The alternatives of `_FOLLOWUP_PREFIX_RE` (drift.py line 13), as the
literal strings the anchored alternation can match.  No alternative is a
prefix of another, so leftmost-alternative regex matching coincides with
finding the unique list element that starts the string. -/
def followupTags : List String :=
  ["redrift-exec-analyze-", "redrift-exec-respec-", "redrift-exec-design-",
   "redrift-exec-build-", "redrift-analyze-", "redrift-respec-", "redrift-design-",
   "redrift-build-", "redrift-v2-", "drift-therapy-redrift-"]

/-- Embedding of `_FOLLOWUP_PREFIX_RE.match(s)`: the matched leading tag, if any. -/
def followupMatch (s : String) : Option String :=
  followupTags.find? (fun p => p.data.isPrefixOf s.data)

/-- The bounded stripping loop of `redrift_lineage` (`for _ in range(20)`). -/
def lineageLoop : Nat → String → Nat → String × Nat
  | 0, cur, depth => (cur, depth)
  | n+1, cur, depth =>
    match followupMatch cur with
    | none => (cur, depth)
    | some p => lineageLoop n (String.mk (cur.data.drop p.data.length)) (depth + 1)

/-- Embedding of `redrift_lineage` (drift.py lines 24-33).  `str(task_id or "")` is the
identity on strings, and the final `current or str(task_id or "")` falls back
to the original id when stripping consumed the whole string. -/
def redrift_lineage (task_id : String) : String × Nat :=
  let r := lineageLoop 20 task_id 0
  (if r.1 = "" then task_id else r.1, r.2)

/-- Embedding of `_phase_for_artifact` (drift.py lines 36-40): first path segment,
stripped and lower-cased, defaulting to the build phase. -/
def phaseForArtifact (rel_path : String) : String :=
  let part := pyLower (pyStrip (String.mk (rel_path.data.takeWhile (fun c => c ≠ '/'))))
  if part ∈ PHASE_ORDER then part else "build"

/-- Embedding of `str(raw or "").strip().lower()`, the first line of `_normalize_status`. -/
def statusValue (raw : Option String) : String := pyLower (pyStrip (orEmpty raw))

/-- The membership chain of `_normalize_status` over the normalized value.
Note the final line of the source is `return value or "open"`: the `"open"`
fallback fires only for an empty normalized value. -/
def normStatusValue (value : String) : String :=
  if value = "done" ∨ value = "completed" ∨ value = "complete" then "done"
  else if value = "abandoned" then "abandoned"
  else if value = "failed" ∨ value = "error" then "failed"
  else if value = "blocked" then "blocked"
  else if value = "in-progress" ∨ value = "in_progress" then "in_progress"
  else if value = "pending-review" ∨ value = "pending_review" then "pending_review"
  else if value = "open" ∨ value = "todo" ∨ value = "pending" ∨
      value = "not_started" ∨ value = "not-started" then "open"
  else pyOrS value ("open")

/-- Embedding of `_normalize_status` (drift.py lines 43-59). -/
def normalizeStatus (raw : Option String) : String :=
  normStatusValue (statusValue raw)

/-- One parsed task-log JSON record, restricted to the keys the source
consults (`kind`, `id`, `status`); a field is `none` when the key is absent
or null. -/
structure GraphRow where
  kind : Option String
  id : Option String
  status : Option String
deriving DecidableEq

/-- A loaded verification-report JSON object, as an association list of its
string-valued fields (`load_verify_state` returns the decoded object or
`None`); the source only reads the `score` and `summary` keys and tests
Python truthiness, i.e. non-emptiness. -/
abbrev VReport := List (String × String)

/-- Embedding of `rid.startswith("redrift-") or rid.startswith("drift-therapy-redrift-")`. -/
def hasFollowupFamily (rid : String) : Bool :=
  ("redrift-").data.isPrefixOf rid.data || ("drift-therapy-redrift-").data.isPrefixOf rid.data

/-- Embedding of `_load_unresolved_followups` (drift.py lines 62-96), from the graph file
to the record level: `rows = none` models a missing `graph.jsonl` (or a
failed read), and each row is an already-decoded record — blank and
unparseable lines, skipped silently by the source, simply do not appear. -/
def loadUnresolvedFollowups (rows : Option (List GraphRow))
    (root_task_id task_id : String) : List Followup :=
  match rows with
  | none => []
  | some rs => rs.filterMap (fun row =>
      if orEmpty row.kind ≠ "task" then none
      else
        let rid := orEmpty row.id
        if rid = "" ∨ rid = task_id then none
        else if pyIn root_task_id rid = false then none
        else if hasFollowupFamily rid = false then none
        else
          let status := normalizeStatus row.status
          if status = "done" ∨ status = "abandoned" then none
          else some ⟨rid, status⟩)

/-! Section: compute_redrift (drift.py lines 99-314) -/

/-- The ambient world of `compute_redrift`: artifact existence checks under
the project directory, the decoded task-graph records (`none` for a missing
graph file), and the result of `load_verify_state` (`none` for a missing or
undecodable report file). -/
structure DriftEnv where
  pathExists : String → Bool
  graphRows : Option (List GraphRow)
  verifyReport : Option VReport

/-- Accumulator of the required-artifact loop: `existing_count`, the ordered
`missing` list, and the insertion-ordered `phase_missing` map. -/
structure ArtifactAudit where
  existing_count : Nat
  missing : List String
  phase_missing : List (String × List String)
deriving DecidableEq

/-- Embedding of `phase_missing.setdefault(ph, []).append(rel)`: append to the list at an
existing key (keeping its position), else add the key at the end. -/
def addPhaseMissing (pm : List (String × List String)) (ph rel : String) :
    List (String × List String) :=
  match pm with
  | [] => [(ph, [rel])]
  | (k, v) :: rest =>
    if k = ph then (k, v ++ [rel]) :: rest else (k, v) :: addPhaseMissing rest ph rel

/-- The `for rel in spec.required_artifacts` loop of `compute_redrift`
(drift.py lines 117-127). -/
def auditArtifacts (env : DriftEnv) (artifacts_root : String)
    (required : List String) : ArtifactAudit :=
  required.foldl (fun acc rel =>
    let rel_clean := lstripSlash (pyStrip rel)
    if rel_clean = "" then acc
    else if env.pathExists (pathJoin artifacts_root rel_clean) then
      { acc with existing_count := acc.existing_count + 1 }
    else
      { acc with
        missing := acc.missing ++ [rel_clean]
        phase_missing := addPhaseMissing acc.phase_missing (phaseForArtifact rel_clean) rel_clean })
    ⟨0, [], []⟩

/-- The `unsupported_schema` finding (drift.py lines 129-136). -/
def schemaFindings (spec : RedriftSpec) : List Finding :=
  if spec.schema ≠ 1 then
    [⟨"unsupported_schema", "error",
      "Unsupported redrift schema: " ++ toString spec.schema ++ " (expected 1)", none⟩]
  else []

/-- The `missing_redrift_artifacts` finding (drift.py lines 138-146). -/
def missingFindings (missing : List String) : List Finding :=
  if missing ≠ [] then
    [⟨"missing_redrift_artifacts", "error",
      "Missing " ++ toString missing.length ++ " required redrift artifact(s)",
      some [("missing", DVal.sl (missing.take 120))]⟩]
  else []

/-- The per-phase `phase_incomplete_<phase>` findings (drift.py lines
148-159); `phase_missing.get(phase) or []` is the defaulted lookup. -/
def phaseFindings (pm : List (String × List String)) : List Finding :=
  PHASE_ORDER.flatMap (fun phase =>
    let m := (pm.lookup phase).getD []
    if m = [] then []
    else
      [⟨"phase_incomplete_" ++ phase, "error",
        phase ++ " phase is incomplete (" ++ toString m.length ++ " artifact(s) missing)",
        some [("missing", DVal.sl (m.take 60))]⟩])

/-- The `unresolved_redrift_followups` finding (drift.py lines 161-174). -/
def followupFindings (unresolved : List Followup) (root_task_id : String) : List Finding :=
  if unresolved ≠ [] then
    [⟨"unresolved_redrift_followups", "error",
      toString unresolved.length ++ " unresolved redrift follow-up task(s) still open",
      some [("tasks", DVal.fl (unresolved.take 30)), ("root_task_id", DVal.s root_task_id)]⟩]
  else []

/-- Embedding of `str(verify_report.get("score") or "").lower()`. -/
def vScoreStr (r : VReport) : String := pyLower ((r.lookup ("score")).getD (""))

/-- The `verification_missing` finding (drift.py lines 180-187). -/
def verificationMissingFinding (vpath : String) : Finding :=
  ⟨"verification_missing", "error",
   "Verification is required but no redrift verify report exists",
   some [("path", DVal.s vpath)]⟩

/-- The `verification_failed` finding (drift.py lines 188-200). -/
def verificationFailedFinding (vpath : String) (r : VReport) : Finding :=
  ⟨"verification_failed", "error", "Latest redrift verification is not green",
   some [("path", DVal.s vpath), ("score", DVal.os (r.lookup ("score"))),
         ("summary", DVal.os (r.lookup ("summary")))]⟩

/-- The verification gate of `compute_redrift` (drift.py lines 176-200):
`if verify_required and not verify_report: ... elif verify_report and
score != "green": ...`, where Python truthiness of the loaded dict is
non-emptiness. -/
def verifyGateFindings (vr : Option VReport) (verify_required : Bool)
    (vpath : String) : List Finding :=
  match vr with
  | none => if verify_required then [verificationMissingFinding vpath] else []
  | some r =>
    if verify_required = true ∧ r = [] then [verificationMissingFinding vpath]
    else if r ≠ [] ∧ vScoreStr r ≠ "green" then [verificationFailedFinding vpath r]
    else []

/-- The full findings list of `compute_redrift`, in source append order. -/
def driftFindings (spec : RedriftSpec) (audit : ArtifactAudit)
    (unresolved : List Followup) (root_task_id : String)
    (vr : Option VReport) (vpath : String) : List Finding :=
  schemaFindings spec ++ missingFindings audit.missing ++ phaseFindings audit.phase_missing
    ++ followupFindings unresolved root_task_id
    ++ verifyGateFindings vr spec.verify_required vpath

/-- The score computation of `compute_redrift` (drift.py lines 202-206):
start green, overwrite with yellow on any warn, then red on any error. -/
def scoreOfFindings (findings : List Finding) : String :=
  let s := "green"
  let s := if findings.any (fun f => decide (f.severity = "warn")) then "yellow" else s
  if findings.any (fun f => decide (f.severity = "error")) then "red" else s

/-- One recommendation dict (`priority`/`action`/`rationale`). -/
structure Recommendation where
  priority : String
  action : String
  rationale : String
deriving DecidableEq

/-- The dedup-by-action pass over recommendations (drift.py lines 287-288):
keep the first occurrence of each `action` text. -/
def dedupeByAction (recs : List Recommendation) : List Recommendation :=
  (recs.foldl (fun (acc : List Recommendation × List String) r =>
    if r.action ∈ acc.2 then acc else (acc.1 ++ [r], acc.2 ++ [r.action])) ([], [])).1

/-- The recommendation builder of `compute_redrift` (drift.py lines 208-288),
in source order, followed by the dedup pass. -/
def driftRecommendations (task_id : String) (missing : List String)
    (pm : List (String × List String)) (findings : List Finding) : List Recommendation :=
  let recs : List Recommendation :=
    (if missing ≠ [] then
      [⟨"high", "Fill missing redrift artifacts before adding new implementation scope",
        "Missing migration artifacts cause intent and implementation to drift apart."⟩]
     else [])
    ++ (if (pm.lookup ("analyze")).getD [] ≠ [] then
      [⟨"high", "Complete analyze artifacts (inventory + constraints)",
        "You need a baseline map of the legacy system before re-spec decisions."⟩]
     else [])
    ++ (if (pm.lookup ("respec")).getD [] ≠ [] then
      [⟨"high", "Complete v2 spec artifacts",
        "Rebuild quality depends on explicit target behavior and interfaces."⟩]
     else [])
    ++ (if (pm.lookup ("design")).getD [] ≠ [] then
      [⟨"high", "Complete architecture/ADR artifacts",
        "Design decisions should be explicit before broad implementation changes."⟩]
     else [])
    ++ (if (pm.lookup ("build")).getD [] ≠ [] then
      [⟨"high", "Complete migration/build plan artifacts",
        "Execution sequencing prevents partial rewrites and hidden regressions."⟩]
     else [])
    ++ (if findings.any (fun f => decide (f.kind = "verification_missing")) then
      [⟨"high", "Run `./.workgraph/redrift wg verify --task " ++ task_id ++ " --write-log`",
        "Redrift done-state now requires green verification gates."⟩]
     else [])
    ++ (if findings.any (fun f => decide (f.kind = "verification_failed")) then
      [⟨"high", "Fix failing verify commands/assertions and re-run redrift verify",
        "Artifact presence alone is insufficient for reliable cutovers."⟩]
     else [])
    ++ (if findings.any (fun f => decide (f.kind = "unresolved_redrift_followups")) then
      [⟨"high", "Resolve or close open redrift follow-up tasks before marking done",
        "Unresolved follow-ups indicate active drift and incomplete synchronization."⟩]
     else [])
    ++ (if findings.any (fun f => decide (f.kind = "unsupported_schema")) then
      [⟨"high", "Set redrift schema = 1", "Only schema v1 is currently supported."⟩]
     else [])
  dedupeByAction recs

/-- Python truthiness of the loaded verification report (`bool(verify_report)`). -/
def reportTruthy : Option VReport → Bool
  | none => false
  | some r => decide (r ≠ [])

/-- The telemetry map of the drift report (drift.py lines 290-303). -/
structure Telemetry where
  artifact_dir : String
  required_count : Nat
  existing_count : Nat
  missing_count : Nat
  phase_missing : List (String × List String)
  root_task_id : String
  lineage_depth : Nat
  verify_required : Bool
  verify_report_path : String
  verify_report_found : Bool
  verify_score : Option String
  open_redrift_followups : List Followup
deriving DecidableEq

/-- The report dict returned by `compute_redrift` (drift.py lines 305-314). -/
structure Report where
  task_id : String
  task_title : String
  git_root : Option String
  score : String
  spec : RedriftSpec
  telemetry : Telemetry
  findings : List Finding
  recommendations : List Recommendation
deriving DecidableEq

/-- Embedding of `compute_redrift` (drift.py lines 99-314).  The `description` argument is
discarded by the source (`_ = description`). -/
def compute_redrift (env : DriftEnv) (task_id task_title description : String)
    (spec : RedriftSpec) (project_dir : String) (git_root : Option String) : Report :=
  let _ := description
  let lineage := redrift_lineage task_id
  let root_task_id := lineage.1
  let artifacts_root := pathJoin (pathJoin project_dir spec.artifact_root) task_id
  let audit := auditArtifacts env artifacts_root spec.required_artifacts
  let unresolved := loadUnresolvedFollowups env.graphRows root_task_id task_id
  let vpath := verifyStatePath project_dir task_id
  let findings := driftFindings spec audit unresolved root_task_id env.verifyReport vpath
  let score := scoreOfFindings findings
  { task_id := task_id
    task_title := task_title
    git_root := git_root
    score := score
    spec := spec
    telemetry :=
      { artifact_dir := artifacts_root
        required_count := spec.required_artifacts.length
        existing_count := audit.existing_count
        missing_count := audit.missing.length
        phase_missing := audit.phase_missing
        root_task_id := root_task_id
        lineage_depth := lineage.2
        verify_required := spec.verify_required
        verify_report_path := vpath
        verify_report_found := reportTruthy env.verifyReport
        verify_score :=
          match env.verifyReport with
          | some r => if r ≠ [] then r.lookup ("score") else none
          | none => none
        open_redrift_followups := unresolved.take 30 }
    findings := findings
    recommendations := driftRecommendations task_id audit.missing audit.phase_missing findings }

/-! Section: Concrete inputs used by witnesses and counterexamples -/

/-- A drift environment with no artifacts on disk, no task graph and no
persisted verification report. -/
def envNone : DriftEnv := ⟨fun _ => false, none, none⟩

/-- A drift environment whose persisted verification report decodes to the
empty JSON object. -/
def envEmptyRep : DriftEnv := ⟨fun _ => false, none, some []⟩

/-- A persisted verification report with a red score. -/
def repRed : VReport := [("score", "red"), ("summary", "1 failing command")]

/-- A drift environment holding the red persisted report `repRed`. -/
def envRedRep : DriftEnv := ⟨fun _ => false, none, some repRed⟩

/-- A specification with no required artifacts and verification off. -/
def specEmptyOff : RedriftSpec := ⟨1, ".workgraph/.redrift", [], true, false, [], [], 1⟩

/-- Like `specEmptyOff` but with an unsupported schema version. -/
def specEmptyOffBad : RedriftSpec := ⟨2, ".workgraph/.redrift", [], true, false, [], [], 1⟩

/-- A specification requiring verification but configuring no commands or
assertions. -/
def specEmptyReq : RedriftSpec := ⟨1, ".workgraph/.redrift", [], true, true, [], [], 1⟩

/-- A verification environment over an empty world. -/
def vEnvTriv : VerifyEnv :=
  ⟨fun _ => false, fun _ => 0, fun _ => [], fun _ => none, fun _ => false, fun _ => "",
   fun _ _ => none, fun _ => ⟨0, "", "", 0⟩, 0⟩

/-- A verification environment whose one file has five lines. -/
def vEnvFive : VerifyEnv :=
  ⟨fun _ => true, fun _ => 5, fun _ => [], fun _ => none, fun _ => false, fun _ => "",
   fun _ _ => none, fun _ => ⟨0, "", "", 0⟩, 0⟩

/-- A 2001-character output string. -/
def longOut : String := String.mk (List.replicate 2001 ('a'))

/-- A verification environment whose commands print `longOut` on both
streams. -/
def envLong : VerifyEnv :=
  ⟨fun _ => false, fun _ => 0, fun _ => [], fun _ => none, fun _ => false, fun _ => "",
   fun _ _ => none, fun _ => ⟨0, longOut, longOut, 0⟩, 0⟩

/-- A verification environment whose commands print a short string. -/
def envShort : VerifyEnv :=
  ⟨fun _ => false, fun _ => 0, fun _ => [], fun _ => none, fun _ => false, fun _ => "",
   fun _ _ => none, fun _ => ⟨0, "hi", "", 0⟩, 0⟩

/-! Section: Helper lemmas -/

/-- A resolver input that no follow-up tag matches resolves to itself with
depth 0. -/
theorem lineage_of_unmatched (s : String) (h : followupMatch s = none) :
    redrift_lineage s = (s, 0) := by
  have h20 : lineageLoop 20 s 0 = (s, 0) := by
    show lineageLoop (19+1) s 0 = (s, 0)
    rw [lineageLoop, h]
  simp [redrift_lineage, h20]

/-- Every `unsupported_schema` finding carries severity error. -/
theorem schemaFindings_severity (spec : RedriftSpec) (f : Finding)
    (h : f ∈ schemaFindings spec) : f.severity = "error" := by
  unfold schemaFindings at h
  split at h <;> simp_all

/-- Every `missing_redrift_artifacts` finding carries severity error. -/
theorem missingFindings_severity (missing : List String) (f : Finding)
    (h : f ∈ missingFindings missing) : f.severity = "error" := by
  unfold missingFindings at h
  split at h <;> simp_all

/-- Every `phase_incomplete_*` finding carries severity error. -/
theorem phaseFindings_severity (pm : List (String × List String)) (f : Finding)
    (h : f ∈ phaseFindings pm) : f.severity = "error" := by
  unfold phaseFindings at h
  simp only [List.mem_flatMap] at h
  obtain ⟨phase, -, hm⟩ := h
  split at hm <;> simp_all

/-- Every `unresolved_redrift_followups` finding carries severity error. -/
theorem followupFindings_severity (unresolved : List Followup) (root : String) (f : Finding)
    (h : f ∈ followupFindings unresolved root) : f.severity = "error" := by
  unfold followupFindings at h
  split at h <;> simp_all

/-- Every verification-gate finding carries severity error. -/
theorem verifyGateFindings_severity (vr : Option VReport) (req : Bool) (vpath : String)
    (f : Finding) (h : f ∈ verifyGateFindings vr req vpath) : f.severity = "error" := by
  unfold verifyGateFindings at h
  cases vr with
  | none =>
    split at h <;> simp_all [verificationMissingFinding]
  | some r =>
    split at h
    · simp_all [verificationMissingFinding, verificationFailedFinding]
    · split at h <;> simp_all [verificationMissingFinding, verificationFailedFinding]

/-- Every finding built by the drift evaluation carries severity error. -/
theorem driftFindings_severity (spec : RedriftSpec) (audit : ArtifactAudit)
    (unresolved : List Followup) (root : String) (vr : Option VReport) (vpath : String)
    (f : Finding) (h : f ∈ driftFindings spec audit unresolved root vr vpath) :
    f.severity = "error" := by
  unfold driftFindings at h
  simp only [List.mem_append] at h
  rcases h with ((((h | h) | h) | h) | h)
  · exact schemaFindings_severity spec f h
  · exact missingFindings_severity _ f h
  · exact phaseFindings_severity _ f h
  · exact followupFindings_severity _ _ f h
  · exact verifyGateFindings_severity _ _ _ f h

/-- When all findings are errors, the three-way score computation collapses
to: green on an empty list, red otherwise. -/
theorem scoreOfFindings_all_error (fs : List Finding)
    (h : ∀ f ∈ fs, f.severity = "error") :
    scoreOfFindings fs = if fs = [] then "green" else "red" := by
  unfold scoreOfFindings
  cases fs with
  | nil => simp
  | cons a t =>
    have ha := h a (List.mem_cons_self a t)
    have hw : ((a :: t).any fun f => decide (f.severity = "warn")) = false := by
      simp only [List.any_eq_false, decide_eq_true_eq]
      intro f hf
      rw [h f hf]
      decide
    have he : ((a :: t).any fun f => decide (f.severity = "error")) = true := by
      simp only [List.any_eq_true, decide_eq_true_eq]
      exact ⟨a, List.mem_cons_self a t, ha⟩
    simp [hw, he]

/-- The findings of a drift report are exactly `driftFindings` at the
audited inputs. -/
theorem compute_redrift_findings (env : DriftEnv) (task_id task_title description : String)
    (spec : RedriftSpec) (project_dir : String) (git_root : Option String) :
    (compute_redrift env task_id task_title description spec project_dir git_root).findings =
      driftFindings spec
        (auditArtifacts env (pathJoin (pathJoin project_dir spec.artifact_root) task_id)
          spec.required_artifacts)
        (loadUnresolvedFollowups env.graphRows (redrift_lineage task_id).1 task_id)
        (redrift_lineage task_id).1 env.verifyReport (verifyStatePath project_dir task_id) := rfl

/-- The score of a drift report is the three-way rule applied to its own
findings list. -/
theorem compute_redrift_score (env : DriftEnv) (task_id task_title description : String)
    (spec : RedriftSpec) (project_dir : String) (git_root : Option String) :
    (compute_redrift env task_id task_title description spec project_dir git_root).score =
      scoreOfFindings
        (compute_redrift env task_id task_title description spec project_dir git_root).findings :=
  rfl

/-- All findings of any drift report carry severity error. -/
theorem compute_redrift_all_error (env : DriftEnv) (task_id task_title description : String)
    (spec : RedriftSpec) (project_dir : String) (git_root : Option String) :
    ∀ f ∈ (compute_redrift env task_id task_title description spec project_dir git_root).findings,
      f.severity = "error" := by
  rw [compute_redrift_findings]
  exact fun f hf => driftFindings_severity _ _ _ _ _ _ f hf

/-! Section: Claim theorems -/

/-- C1: for every drift evaluation, the report score computed by
`compute_redrift` follows the three-way rule — green iff the findings list
is empty, yellow iff findings exist and all of them have severity warn, red
iff at least one finding has severity error. -/
theorem drift_score_three_way (env : DriftEnv) (task_id task_title description : String)
    (spec : RedriftSpec) (project_dir : String) (git_root : Option String) :
    ((compute_redrift env task_id task_title description spec project_dir git_root).score
        = "green"
      ↔ (compute_redrift env task_id task_title description spec project_dir git_root).findings
        = [])
    ∧ ((compute_redrift env task_id task_title description spec project_dir git_root).score
        = "yellow"
      ↔ ((compute_redrift env task_id task_title description spec project_dir git_root).findings
          ≠ []
        ∧ ∀ f ∈ (compute_redrift env task_id task_title description spec
            project_dir git_root).findings, f.severity = "warn"))
    ∧ ((compute_redrift env task_id task_title description spec project_dir git_root).score
        = "red"
      ↔ ∃ f ∈ (compute_redrift env task_id task_title description spec
          project_dir git_root).findings, f.severity = "error") := by
  have hall := compute_redrift_all_error env task_id task_title description spec
    project_dir git_root
  have hs := compute_redrift_score env task_id task_title description spec
    project_dir git_root
  rw [scoreOfFindings_all_error _ hall] at hs
  by_cases he :
      (compute_redrift env task_id task_title description spec project_dir git_root).findings = []
  · rw [if_pos he] at hs
    refine ⟨⟨fun _ => he, fun _ => hs⟩, ?_, ?_⟩
    · constructor
      · intro hcontra
        rw [hs] at hcontra
        exact absurd hcontra (by decide)
      · rintro ⟨hne, -⟩
        exact absurd he hne
    · constructor
      · intro hcontra
        rw [hs] at hcontra
        exact absurd hcontra (by decide)
      · rintro ⟨f, hf, -⟩
        rw [he] at hf
        cases hf
  · rw [if_neg he] at hs
    obtain ⟨f0, hf0⟩ := List.exists_mem_of_ne_nil _ he
    refine ⟨?_, ?_, ?_⟩
    · constructor
      · intro hcontra
        rw [hs] at hcontra
        exact absurd hcontra (by decide)
      · intro hcontra
        exact absurd hcontra he
    · constructor
      · intro hcontra
        rw [hs] at hcontra
        exact absurd hcontra (by decide)
      · rintro ⟨-, hwarn⟩
        have h1 := hall f0 hf0
        have h2 := hwarn f0 hf0
        rw [h1] at h2
        exact absurd h2 (by decide)
    · exact ⟨fun _ => ⟨f0, hf0, hall f0 hf0⟩, fun _ => hs⟩

/-- C1 witness: the three-way rule instantiated at a concrete evaluation. -/
theorem drift_score_three_way_witness :
    (compute_redrift envNone ("t") ("T") ("") specEmptyOff ("/p") none).score = "green"
      ↔ (compute_redrift envNone ("t") ("T") ("") specEmptyOff ("/p") none).findings = [] :=
  (drift_score_three_way envNone ("t") ("T") ("") specEmptyOff ("/p") none).1

/-- C10: every finding constructed by `compute_redrift` has severity error,
so the drift report score is always green or red — never yellow. -/
theorem drift_findings_error_only (env : DriftEnv) (task_id task_title description : String)
    (spec : RedriftSpec) (project_dir : String) (git_root : Option String) :
    (∀ f ∈ (compute_redrift env task_id task_title description spec
        project_dir git_root).findings, f.severity = "error")
    ∧ ((compute_redrift env task_id task_title description spec project_dir git_root).score
        = "green"
      ∨ (compute_redrift env task_id task_title description spec project_dir git_root).score
        = "red") := by
  have hall := compute_redrift_all_error env task_id task_title description spec
    project_dir git_root
  refine ⟨hall, ?_⟩
  have hs := compute_redrift_score env task_id task_title description spec
    project_dir git_root
  rw [scoreOfFindings_all_error _ hall] at hs
  rw [hs]
  split
  · exact Or.inl rfl
  · exact Or.inr rfl

/-- C10 witness: at a concrete spec with an unsupported schema the single
finding produced indeed has severity error. -/
theorem drift_findings_error_only_witness :
    (⟨"unsupported_schema", "error", "Unsupported redrift schema: 2 (expected 1)",
      none⟩ : Finding).severity = "error" :=
  (drift_findings_error_only envNone ("t") ("T") ("") specEmptyOffBad ("/p") none).1 _
    (by decide)

/-- C3 counterexample: resolving the identifier `redrift-v2-` yields root
`redrift-v2-` (via the empty-result fallback) at depth 1, and resolving that
root again yields depth 1, not 0 — so the universally quantified idempotence
property of the claim is false. -/
theorem lineage_root_idempotent_cex :
    redrift_lineage ((redrift_lineage ("redrift-v2-")).1)
      ≠ ((redrift_lineage ("redrift-v2-")).1, 0) := by decide

/-- C3 (amended): whenever the root identifier returned by `redrift_lineage`
carries no follow-up tag — which holds in every run that stops before the
20-iteration cap with a nonempty remainder — re-resolving the root yields
that same identifier with depth 0; and the two concrete resolutions of the
claim hold. -/
theorem lineage_root_idempotent (s : String)
    (h : followupMatch ((redrift_lineage s).1) = none) :
    redrift_lineage ((redrift_lineage s).1) = ((redrift_lineage s).1, 0)
    ∧ redrift_lineage ("redrift-exec-analyze-redrift-exec-build-root") = ("root", 2)
    ∧ redrift_lineage ("root") = ("root", 0) :=
  ⟨lineage_of_unmatched _ h, by decide, by decide⟩

/-- C3 witness: the amended idempotence at the claim's concrete example. -/
theorem lineage_root_idempotent_witness :
    redrift_lineage ((redrift_lineage ("redrift-exec-analyze-redrift-exec-build-root")).1)
      = ((redrift_lineage ("redrift-exec-analyze-redrift-exec-build-root")).1, 0) :=
  (lineage_root_idempotent ("redrift-exec-analyze-redrift-exec-build-root") (by decide)).1

/-- The fixed normalized-status vocabulary of the specification. -/
def statusVocab : List String :=
  ["done", "abandoned", "failed", "blocked", "in_progress", "pending_review", "open"]

/-- C5 counterexample: an unrecognized non-empty status is returned verbatim
by `_normalize_status` (the source's `value or "open"` keeps the value), so
the normalized status is not always one of the seven documented values. -/
theorem normalize_status_vocab_cex :
    normalizeStatus (some ("weird")) = "weird"
    ∧ ("weird" : String) ∉ statusVocab := by decide

/-- Status variants recognized by the membership chain of
`_normalize_status` (drift.py lines 45-58). -/
def recognizedStatuses : List String :=
  ["done", "completed", "complete", "abandoned", "failed", "error", "blocked",
   "in-progress", "in_progress", "pending-review", "pending_review",
   "open", "todo", "pending", "not_started", "not-started"]

/-- Case analysis of the membership chain: recognized values normalize into
the seven-value vocabulary, the empty value falls back to `open`, and every
unrecognized non-empty value is returned verbatim. -/
theorem normStatus_cases (v : String) :
    (v ∈ recognizedStatuses → normStatusValue v ∈ statusVocab)
    ∧ (v = "" → normStatusValue v = "open")
    ∧ (v ∉ recognizedStatuses → v ≠ "" → normStatusValue v = v) := by
  refine ⟨?_, ?_, ?_⟩
  · intro h
    fin_cases h <;> decide
  · intro h
    subst h
    decide
  · intro hnr hne
    unfold normStatusValue pyOrS
    split_ifs <;> simp_all [recognizedStatuses]

/-- C5 (amended): the normalized status is one of the seven documented
values whenever the stripped lower-cased input is a recognized variant, the
empty input falls back to `open`, and every unrecognized non-empty input is
returned verbatim — so `open` is the fallback only for empty (or absent)
raw values. -/
theorem normalize_status_vocab (raw : Option String) :
    (statusValue raw ∈ recognizedStatuses → normalizeStatus raw ∈ statusVocab)
    ∧ (statusValue raw = "" → normalizeStatus raw = "open")
    ∧ (statusValue raw ∉ recognizedStatuses → statusValue raw ≠ "" →
      normalizeStatus raw = statusValue raw) := by
  unfold normalizeStatus
  exact normStatus_cases (statusValue raw)

/-- C5 witness: the recognized alias `completed` (after stripping and
lowering) normalizes into the seven-value vocabulary. -/
theorem normalize_status_vocab_witness :
    normalizeStatus (some ("Completed ")) ∈ statusVocab :=
  (normalize_status_vocab (some ("Completed "))).1 (by decide)

/-- C2 counterexample: when the persisted report file decodes to the empty
JSON object, a report is loaded and its score (the empty string) is not
green, yet `compute_redrift` emits `verification_missing` and no
`verification_failed` finding — Python truthiness treats the empty dict as
absent. -/
theorem drift_verification_gate_cex :
    envEmptyRep.verifyReport = some []
    ∧ vScoreStr [] ≠ "green"
    ∧ (compute_redrift envEmptyRep ("t") ("T") ("") specEmptyReq ("/p") none).findings
      = [verificationMissingFinding (verifyStatePath ("/p") ("t"))] := by decide

/-- C2 (amended): in `compute_redrift`, if `verify_required` is true and the
loaded verification report is absent or empty, a `verification_missing`
finding with severity error and the expected report path as detail is added;
and if a loaded report is non-empty and its score is not green, a
`verification_failed` finding with severity error and path/score/summary
details is added. -/
theorem drift_verification_gate (env : DriftEnv) (task_id task_title description : String)
    (spec : RedriftSpec) (project_dir : String) (git_root : Option String) :
    ((env.verifyReport = none ∨ env.verifyReport = some []) → spec.verify_required = true →
      verificationMissingFinding (verifyStatePath project_dir task_id)
        ∈ (compute_redrift env task_id task_title description spec
            project_dir git_root).findings)
    ∧ (∀ rep : VReport, env.verifyReport = some rep → rep ≠ [] → vScoreStr rep ≠ "green" →
      verificationFailedFinding (verifyStatePath project_dir task_id) rep
        ∈ (compute_redrift env task_id task_title description spec
            project_dir git_root).findings) := by
  rw [compute_redrift_findings]
  constructor
  · intro hvr hreq
    have hmem : verificationMissingFinding (verifyStatePath project_dir task_id)
        ∈ verifyGateFindings env.verifyReport spec.verify_required
          (verifyStatePath project_dir task_id) := by
      rcases hvr with h | h <;> rw [h] <;> simp [verifyGateFindings, hreq]
    unfold driftFindings
    simp only [List.mem_append]
    exact Or.inr hmem
  · intro rep hrep hne hscore
    have hmem : verificationFailedFinding (verifyStatePath project_dir task_id) rep
        ∈ verifyGateFindings env.verifyReport spec.verify_required
          (verifyStatePath project_dir task_id) := by
      rw [hrep]
      simp only [verifyGateFindings]
      rw [if_neg (by simp [hne]), if_pos ⟨hne, hscore⟩]
      exact List.mem_singleton.mpr rfl
    unfold driftFindings
    simp only [List.mem_append]
    exact Or.inr hmem

/-- C2 witness: with a persisted red report the `verification_failed`
finding is present in the drift report. -/
theorem drift_verification_gate_witness :
    verificationFailedFinding (verifyStatePath ("/p") ("t")) repRed
      ∈ (compute_redrift envRedRep ("t") ("T") ("") specEmptyReq ("/p") none).findings :=
  (drift_verification_gate envRedRep ("t") ("T") ("") specEmptyReq ("/p") none).2
    repRed rfl (by decide) (by decide)

/-- C4 counterexample: a specification with empty `required_artifacts` and
`verify_required` false but schema 2 produces an `unsupported_schema` error
finding, so the score is red, not green — the claim's quantification over
all specifications (and all project states) fails. -/
theorem drift_empty_spec_green_cex :
    specEmptyOffBad.required_artifacts = []
    ∧ specEmptyOffBad.verify_required = false
    ∧ (compute_redrift envNone ("t") ("T") ("") specEmptyOffBad ("/p") none).score = "red"
    ∧ (compute_redrift envNone ("t") ("T") ("") specEmptyOffBad ("/p") none).findings
      ≠ [] := by decide

/-- The verification gate emits nothing when verification is not required
and any loaded non-empty report is green. -/
theorem verifyGate_off (vr : Option VReport) (vpath : String)
    (hrep : ∀ rep : VReport, vr = some rep → rep ≠ [] → vScoreStr rep = "green") :
    verifyGateFindings vr false vpath = [] := by
  cases vr with
  | none => simp [verifyGateFindings]
  | some r =>
    simp only [verifyGateFindings]
    rw [if_neg (by simp)]
    by_cases hr : r = []
    · rw [if_neg (by simp [hr])]
    · rw [if_neg (by simp [hrep r rfl hr])]

/-- C4 (amended): for every specification with empty `required_artifacts`,
`verify_required` false and schema 1, evaluated when the task graph holds no
unresolved redrift follow-ups and any loaded persisted verification report
is empty or green, `compute_redrift` returns score green and an empty
findings list, for every task id and project root. -/
theorem drift_empty_spec_green (env : DriftEnv) (task_id task_title description : String)
    (spec : RedriftSpec) (project_dir : String) (git_root : Option String)
    (hart : spec.required_artifacts = [])
    (hvr : spec.verify_required = false)
    (hschema : spec.schema = 1)
    (hfollow : loadUnresolvedFollowups env.graphRows ((redrift_lineage task_id).1) task_id = [])
    (hrep : ∀ rep : VReport, env.verifyReport = some rep → rep ≠ [] →
      vScoreStr rep = "green") :
    (compute_redrift env task_id task_title description spec project_dir git_root).score
      = "green"
    ∧ (compute_redrift env task_id task_title description spec project_dir git_root).findings
      = [] := by
  have hfind :
      (compute_redrift env task_id task_title description spec project_dir git_root).findings
        = [] := by
    rw [compute_redrift_findings]
    unfold driftFindings
    rw [hart, hfollow, hvr]
    have h1 : schemaFindings spec = [] := by simp [schemaFindings, hschema]
    have h2 : auditArtifacts env
        (pathJoin (pathJoin project_dir spec.artifact_root) task_id) [] = ⟨0, [], []⟩ := rfl
    have h3 : verifyGateFindings env.verifyReport false
        (verifyStatePath project_dir task_id) = [] :=
      verifyGate_off _ _ hrep
    rw [h1, h2, h3]
    simp [missingFindings, phaseFindings, followupFindings]
  refine ⟨?_, hfind⟩
  rw [compute_redrift_score, hfind]
  decide

set_option maxRecDepth 4000 in
/-- C4 witness: the amended statement at a concrete empty specification and
empty world. -/
theorem drift_empty_spec_green_witness :
    (compute_redrift envNone ("t") ("T") ("") specEmptyOff ("/p") none).score = "green"
    ∧ (compute_redrift envNone ("t") ("T") ("") specEmptyOff ("/p") none).findings = [] :=
  drift_empty_spec_green envNone ("t") ("T") ("") specEmptyOff ("/p") none rfl rfl rfl
    (by decide) (by intro rep h; cases h)

/-- Truncation adds at most the 18-character marker beyond the limit. -/
theorem truncate_le (limit : Nat) (t : String) : pyLen (truncate limit t) ≤ limit + 18 := by
  unfold truncate
  split
  · next h => exact Nat.le_trans h (Nat.le_add_right _ _)
  · show (String.mk (t.data.take limit ++ truncMarker.data)).data.length ≤ limit + 18
    have hm : truncMarker.data.length = 18 := by decide
    rw [List.length_append, List.length_take, hm]
    have := Nat.min_le_left limit t.data.length
    omega

/-- Truncation of a stream longer than the limit yields exactly the limit
plus the 18-character marker. -/
theorem truncate_length_gt (limit : Nat) (t : String) (h : limit < pyLen t) :
    pyLen (truncate limit t) = limit + 18 := by
  unfold truncate
  rw [if_neg (by omega)]
  show (t.data.take limit ++ truncMarker.data).length = limit + 18
  have hm : truncMarker.data.length = 18 := by decide
  have h' : limit ≤ t.data.length := Nat.le_of_lt h
  rw [List.length_append, List.length_take, hm, Nat.min_eq_left h']

/-- C6 counterexample: a 2001-character command output is stored as a
2018-character string (2000 kept characters plus the 18-character
truncation marker), which exceeds 2000. -/
theorem run_command_truncation_cex :
    pyLen ((runCommand envLong ("c")).stdout) = 2018 ∧ 2000 < 2018 := by
  have hstd : (runCommand envLong ("c")).stdout = truncate 2000 longOut := by
    simp only [runCommand, envLong]
  have hlen : pyLen longOut = 2001 := by
    show (List.replicate 2001 ('a')).length = 2001
    exact List.length_replicate 2001 ('a')
  refine ⟨?_, by omega⟩
  rw [hstd, truncate_length_gt 2000 longOut (by omega)]

/-- C6 (amended): the stdout and stderr strings stored in a per-command
result are each at most 2018 characters — the first 2000 characters of the
captured stream plus an 18-character truncation marker when truncation
occurs — and streams of at most 2000 characters are stored unchanged. -/
theorem run_command_truncation (env : VerifyEnv) (command : String) :
    pyLen ((runCommand env command).stdout) ≤ 2018
    ∧ pyLen ((runCommand env command).stderr) ≤ 2018
    ∧ (pyLen (env.run command).stdout ≤ 2000 →
        (runCommand env command).stdout = (env.run command).stdout)
    ∧ (pyLen (env.run command).stderr ≤ 2000 →
        (runCommand env command).stderr = (env.run command).stderr) := by
  refine ⟨?_, ?_, ?_, ?_⟩
  · have h := truncate_le 2000 (env.run command).stdout
    show pyLen (truncate 2000 (env.run command).stdout) ≤ 2018
    omega
  · have h := truncate_le 2000 (env.run command).stderr
    show pyLen (truncate 2000 (env.run command).stderr) ≤ 2018
    omega
  · intro h
    show truncate 2000 (env.run command).stdout = (env.run command).stdout
    unfold truncate
    rw [if_pos h]
  · intro h
    show truncate 2000 (env.run command).stderr = (env.run command).stderr
    unfold truncate
    rw [if_pos h]

/-- C6 witness: a short stream is stored unchanged. -/
theorem run_command_truncation_witness :
    (runCommand envShort ("c")).stdout = "hi" :=
  (run_command_truncation envShort ("c")).2.2.1 (by decide)

/-- C7: when `verify_required` is true and both the (blank-filtered) command
list and the assertion list are empty, `run_verify` emits a
`verify_unconfigured` finding with severity error and scores red. -/
theorem verify_unconfigured_red (env : VerifyEnv) (task_id task_title : String)
    (spec : RedriftSpec) (git_root : Option String)
    (hreq : spec.verify_required = true)
    (hc : cleanCommands spec.verify_commands = [])
    (ha : spec.verify_assertions = []) :
    (⟨"verify_unconfigured", "error",
      "verify_required=true but no verify commands/assertions are configured",
      none⟩ : Finding)
      ∈ (run_verify env task_id task_title spec git_root).findings
    ∧ (run_verify env task_id task_title spec git_root).score = "red" := by
  have hfind : (run_verify env task_id task_title spec git_root).findings
      = [⟨"verify_unconfigured", "error",
          "verify_required=true but no verify commands/assertions are configured", none⟩] := by
    simp [run_verify, hreq, hc, ha]
  have hscore : (run_verify env task_id task_title spec git_root).score
      = if (run_verify env task_id task_title spec git_root).findings = []
        then "green" else "red" := rfl
  rw [hfind] at hscore
  refine ⟨?_, ?_⟩
  · rw [hfind]
    exact List.mem_singleton.mpr rfl
  · rw [hscore]
    decide

/-- C7 witness: the unconfigured gate at a concrete empty configuration. -/
theorem verify_unconfigured_red_witness :
    (⟨"verify_unconfigured", "error",
      "verify_required=true but no verify commands/assertions are configured",
      none⟩ : Finding)
      ∈ (run_verify vEnvTriv ("t") ("T") specEmptyReq none).findings
    ∧ (run_verify vEnvTriv ("t") ("T") specEmptyReq none).score = "red" :=
  verify_unconfigured_red vEnvTriv ("t") ("T") specEmptyReq none rfl rfl rfl

/-- C8: the `max_lines` assertion fails on an empty path, a non-positive (or
uncoercible) `max`, or a missing file; on an existing file with positive
`max` it passes at exactly `max` lines and fails at `max + 1` lines. -/
theorem max_lines_semantics (env : VerifyEnv) (a : Assertion) :
    (pyStrip (orEmpty a.path) = "" → (assertMaxLines env a).ok = false)
    ∧ (a.maxRaw.getD 0 ≤ 0 → (assertMaxLines env a).ok = false)
    ∧ (env.fileExists (pyStrip (orEmpty a.path)) = false → (assertMaxLines env a).ok = false)
    ∧ (pyStrip (orEmpty a.path) ≠ "" → 0 < a.maxRaw.getD 0 →
        env.fileExists (pyStrip (orEmpty a.path)) = true →
        (((env.fileLineCount (pyStrip (orEmpty a.path)) : Int) = a.maxRaw.getD 0 →
            (assertMaxLines env a).ok = true)
          ∧ ((env.fileLineCount (pyStrip (orEmpty a.path)) : Int) = a.maxRaw.getD 0 + 1 →
            (assertMaxLines env a).ok = false))) := by
  refine ⟨?_, ?_, ?_, ?_⟩
  · intro hp
    simp only [assertMaxLines]
    rw [if_pos (Or.inl hp)]
  · intro hm
    simp only [assertMaxLines]
    rw [if_pos (Or.inr hm)]
  · intro hex
    simp only [assertMaxLines]
    split <;> simp_all
  · intro hp hm hex
    constructor
    · intro hc
      simp only [assertMaxLines]
      rw [if_neg (by push_neg; exact ⟨hp, hm⟩), if_neg (by rw [hex]; decide)]
      simp only [decide_eq_true_eq]
      rw [hc]
    · intro hc
      simp only [assertMaxLines]
      rw [if_neg (by push_neg; exact ⟨hp, hm⟩), if_neg (by rw [hex]; decide)]
      simp only [decide_eq_false_iff_not]
      rw [hc]
      omega

/-- C8 witness: a five-line file passes a `max = 5` assertion. -/
theorem max_lines_semantics_witness :
    (assertMaxLines vEnvFive ⟨none, none, some ("f.txt"), some 5, none, none⟩).ok = true :=
  ((max_lines_semantics vEnvFive ⟨none, none, some ("f.txt"), some 5, none, none⟩).2.2.2
    (by decide) (by decide) rfl).1 (by decide)

/-- C9 counterexample: a `required_artifacts` list holding only a blank
string is truthy, so `from_raw` keeps it and the blank filter then empties
it — the default six-item list is not substituted. -/
theorem from_raw_artifact_defaults_cex :
    (RedriftSpec.from_raw ⟨none, none, some [" "], none, none, none, none, none⟩).required_artifacts
      = []
    ∧ defaultArtifacts ≠ [] := by decide

/-- C9 (amended): `from_raw` substitutes the default six-item artifact list
when the `required_artifacts` key is absent or its value is the empty list
(Python falsiness); a non-empty list of only blank strings is instead kept
and filtered down to the empty list. -/
theorem from_raw_artifact_defaults (raw : RawSpec) :
    ((raw.required_artifacts = none ∨ raw.required_artifacts = some []) →
      (RedriftSpec.from_raw raw).required_artifacts = defaultArtifacts)
    ∧ (∀ l : List String, raw.required_artifacts = some l → l ≠ [] →
      (∀ x ∈ l, pyStrip x = "") →
      (RedriftSpec.from_raw raw).required_artifacts = []) := by
  constructor
  · intro h
    have hclean : cleanArtifacts defaultArtifacts = defaultArtifacts := by decide
    rcases h with h | h <;>
      simp only [RedriftSpec.from_raw, h] <;> exact hclean
  · intro l hl hne hblank
    cases l with
    | nil => exact absurd rfl hne
    | cons x t =>
      simp only [RedriftSpec.from_raw, hl]
      rw [cleanArtifacts, List.filterMap_eq_nil_iff]
      intro y hy
      rw [if_pos (hblank y hy)]

/-- C9 witness: the defaults are substituted for an absent key. -/
theorem from_raw_artifact_defaults_witness :
    (RedriftSpec.from_raw ⟨none, none, none, none, none, none, none, none⟩).required_artifacts
      = defaultArtifacts :=
  (from_raw_artifact_defaults ⟨none, none, none, none, none, none, none, none⟩).1 (Or.inl rfl)

end Redrift
